import Mathlib

/-!
Shallow embedding of the update-dispatch pipeline of the Dev2ProductionTech
bot repository: the webhook endpoint (src/api/webhooks.py), the update
dispatcher (src/services/telegram_handler.py), the conversation store
(src/services/conversation_manager.py) and the outbound client
(src/services/telegram_client.py), over the data model of src/db/models.py.

Conventions of the embedding:
- Python JSON values are modelled by the `Json` type; dictionary subscripting
  (`d["k"]`, raising KeyError / TypeError) and `.get` (returning a default)
  are modelled by `Json.item` and `Json.lookup`.
- Python exceptions are modelled by the `Except Err` channel; a `try/except`
  block that swallows exceptions keeps the state component and discards the
  error component.
- The relational store is the `DB` structure.  `created_at` timestamps are
  modelled by the strictly increasing counter `DB.nextId` (each committed row
  takes the current counter value), which realises the model invariant that
  messages are strictly ordered by creation timestamp.  The UNIQUE constraint
  on `conversations.telegram_user_id` and the FOREIGN KEY constraint on
  `messages.conversation_id` declared in src/db/models.py are enforced at
  commit, as PostgreSQL does: a violating INSERT fails and persists nothing.
- Outbound HTTP calls performed by TelegramClient are recorded in a trace
  (`W.trace`); whether each successive outbound call succeeds is decided by
  the oracle list `W.net` (head consumed per call, success when exhausted).
  A failing call still appears in the trace (the POST was attempted) and then
  raises, as `httpx.raise_for_status` does.
-/

/-- A JSON value as decoded by `request.json()` (floats are not needed by any
code path modelled here). -/
inductive Json where
  | null : Json
  | bool (b : Bool) : Json
  | int (i : Int) : Json
  | str (s : String) : Json
  | obj (fields : List (String × Json)) : Json

/-- Python truthiness of a JSON value (`if message:`): None, False, 0, "" and
{} are falsy. -/
def Json.truthy : Json → Bool
  | .null => false
  | .bool b => b
  | .int i => i != 0
  | .str s => s != ""
  | .obj fields => !fields.isEmpty

/-- Dictionary `.get(k)` on an object: `none` when the key is absent.  Callers
that apply it to a non-dict are modelled separately (see `process_update`). -/
def Json.lookup : Json → String → Option Json
  | .obj fields, k => (fields.find? (fun p => p.fst == k)).map (fun p => p.snd)
  | _, _ => none

/-- `.get(k)` followed by the Python truthiness test `if v:`. -/
def Json.truthyGet (j : Json) (k : String) : Option Json :=
  match j.lookup k with
  | some v => if v.truthy then some v else none
  | none => none

/-- Errors raised by the modelled code (Python exception classes). -/
inductive Err where
  /-- `d[k]` on a dict without the key. -/
  | keyError (k : String) : Err
  /-- Subscripting a non-dict value, or a value of an unexpected shape. -/
  | typeError : Err
  /-- `.get` on a non-dict (`update_data.get` when the body is not an object). -/
  | attributeError : Err
  /-- `SenderType(s)` on a string that is not a member of the enum. -/
  | valueError : Err
  /-- `scalar_one_or_none` found more than one row. -/
  | multipleResults : Err
  /-- Commit rejected by the UNIQUE constraint on `telegram_user_id`. -/
  | integrityError : Err
  /-- Commit rejected by the FOREIGN KEY constraint on
  `messages.conversation_id`: the referenced conversation does not exist.
  The design taxonomy names this condition NotFoundError. -/
  | notFoundError : Err
  /-- Outbound platform call failed (`raise_for_status` / network error). -/
  | deliveryError : Err
  /-- PostgreSQL rejects a negative LIMIT argument. -/
  | limitNegative : Err
deriving DecidableEq, Repr

/-- Dictionary subscript `d[k]`: KeyError when absent, TypeError on non-dict. -/
def Json.item : Json → String → Except Err Json
  | .obj fields, k =>
      match (Json.obj fields).lookup k with
      | some v => .ok v
      | none => .error (.keyError k)
  | _, _ => .error .typeError

/-- Read a JSON value as an integer (Telegram ids are integers). -/
def Json.asInt : Json → Except Err Int
  | .int i => .ok i
  | _ => .error .typeError

/-- Read a JSON value as a string. -/
def Json.asStr : Json → Except Err String
  | .str s => .ok s
  | _ => .error .typeError

/-- `ConversationStatus` of src/db/models.py. -/
inductive ConversationStatus where
  | active | escalated | resolved | archived
deriving DecidableEq, Repr

/-- `SenderType` of src/db/models.py. -/
inductive SenderType where
  | user | bot | agent
deriving DecidableEq, Repr

/-- `SenderType(s)`: the enum constructor on a stored string; raises
ValueError on an unknown string (modelled as `none`). -/
def SenderType.ofString : String → Option SenderType
  | "user" => some .user
  | "bot" => some .bot
  | "agent" => some .agent
  | _ => none

/-- A row of the `conversations` table (columns not read or written by any
modelled code path — lead_score, escalated_at, updated_at — are omitted;
creation order is carried by `id`, drawn from the monotone counter). -/
structure Conversation where
  id : Nat
  telegram_user_id : Int
  telegram_username : Option String
  status : ConversationStatus
deriving DecidableEq, Repr

/-- A row of the `messages` table. -/
structure Message where
  id : Nat
  conversation_id : Nat
  sender_type : SenderType
  content : String
  telegram_message_id : Option Int
  llm_used : Bool
  llm_model : Option String
  llm_tokens_used : Option Int
  llm_confidence : Option Rat
  llm_latency_ms : Option Int
  created_at : Nat
deriving DecidableEq, Repr

/-- The `llm_metadata` dict accepted by `add_message`. -/
structure LlmMetadata where
  model : Option String
  tokens : Option Int
  confidence : Option Rat
  latency_ms : Option Int
deriving DecidableEq, Repr

/-- The relational store.  `nextId` is the monotone id/timestamp counter. -/
structure DB where
  conversations : List Conversation
  messages : List Message
  nextId : Nat
deriving DecidableEq, Repr

/-- An outbound platform call attempted by TelegramClient, with the payload
fields the code populates.  `reply_markup` carries the `inline_keyboard`
rows of the keyboard dict. -/
inductive ApiCall where
  | sendMessage (chat_id : Int) (text : String) (parse_mode : Option String)
      (reply_markup : Option (List (List (String × String)))) : ApiCall
  | answerCallbackQuery (callback_query_id : String) (text : Option String)
      (show_alert : Bool) : ApiCall
deriving DecidableEq, Repr

/-- The world threaded through the pipeline: the store, the trace of attempted
outbound calls, and the network oracle (head = outcome of the next outbound
call; an exhausted oracle means success). -/
structure W where
  db : DB
  trace : List ApiCall
  net : List Bool
deriving DecidableEq, Repr

/-- Whether the next outbound call succeeds under the oracle. -/
def W.netOk (w : W) : Bool := w.net.head?.getD true

/-- `TelegramClient.send_message` (src/services/telegram_client.py lines
18-48): POSTs the payload — recorded in the trace — and raises on a
non-success outcome. -/
def TelegramClient.send_message (w : W) (chat_id : Int) (text : String)
    (parse_mode : Option String)
    (reply_markup : Option (List (List (String × String)))) :
    W × Except Err Unit :=
  let w2 : W :=
    W.mk w.db (w.trace ++ [ApiCall.sendMessage chat_id text parse_mode reply_markup]) w.net.tail
  if w.netOk then (w2, .ok ()) else (w2, .error .deliveryError)

/-- `TelegramClient.answer_callback_query` (lines 50-76). -/
def TelegramClient.answer_callback_query (w : W) (callback_query_id : String)
    (text : Option String) (show_alert : Bool) : W × Except Err Unit :=
  let w2 : W :=
    W.mk w.db (w.trace ++ [ApiCall.answerCallbackQuery callback_query_id text show_alert]) w.net.tail
  if w.netOk then (w2, .ok ()) else (w2, .error .deliveryError)

/-- The rows of the SELECT in `get_or_create`: conversations of the user with
status ACTIVE. -/
def activeFor (conversations : List Conversation) (uid : Int) : List Conversation :=
  conversations.filter
    (fun c => c.telegram_user_id == uid && c.status == ConversationStatus.active)

/-- The rows the UNIQUE constraint on `telegram_user_id` ranges over:
all conversations of the user, any status. -/
def rowsFor (conversations : List Conversation) (uid : Int) : List Conversation :=
  conversations.filter (fun c => c.telegram_user_id == uid)

/-- SQLAlchemy `scalar_one_or_none`: none, the unique row, or
MultipleResultsFound. -/
def scalar_one_or_none (l : List Conversation) : Except Err (Option Conversation) :=
  match l with
  | [] => .ok none
  | [c] => .ok (some c)
  | _ :: _ :: _ => .error .multipleResults

/-- `ConversationManager.get_or_create` (src/services/conversation_manager.py
lines 19-53): SELECT the ACTIVE conversation of the user; if none, INSERT a
new ACTIVE one and COMMIT.  The commit is where the UNIQUE constraint on
`telegram_user_id` applies: if any row for the user already exists, the
INSERT fails and nothing is persisted. -/
def ConversationManager.get_or_create (w : W) (telegram_user_id : Int)
    (telegram_username : Option String) : W × Except Err Conversation :=
  match scalar_one_or_none (activeFor w.db.conversations telegram_user_id) with
  | .error e => (w, .error e)
  | .ok (some conversation) => (w, .ok conversation)
  | .ok none =>
      if (rowsFor w.db.conversations telegram_user_id).isEmpty then
        let conversation : Conversation :=
          Conversation.mk w.db.nextId telegram_user_id telegram_username
            ConversationStatus.active
        (W.mk (DB.mk (w.db.conversations ++ [conversation]) w.db.messages (w.db.nextId + 1))
           w.trace w.net,
         .ok conversation)
      else
        (w, .error .integrityError)

/-- `ConversationManager.add_message` (lines 55-91): build the Message row —
`SenderType(sender_type)` may raise ValueError first — then COMMIT.  The
commit is where the FOREIGN KEY on `conversation_id` applies: when the
referenced conversation does not exist the INSERT fails and nothing is
persisted (the design taxonomy calls this NotFoundError). -/
def ConversationManager.add_message (w : W) (conversation_id : Nat)
    (sender_type : String) (content : String) (telegram_message_id : Option Int)
    (llm_metadata : Option LlmMetadata) : W × Except Err Message :=
  match SenderType.ofString sender_type with
  | none => (w, .error .valueError)
  | some st =>
      let message : Message :=
        match llm_metadata with
        | none =>
            Message.mk w.db.nextId conversation_id st content telegram_message_id
              false none none none none w.db.nextId
        | some md =>
            Message.mk w.db.nextId conversation_id st content telegram_message_id
              true md.model md.tokens md.confidence md.latency_ms w.db.nextId
      if w.db.conversations.any (fun c => c.id == conversation_id) then
        (W.mk (DB.mk w.db.conversations (w.db.messages ++ [message]) (w.db.nextId + 1))
           w.trace w.net,
         .ok message)
      else
        (w, .error .notFoundError)

/-- Insert a message into a list kept in descending `created_at` order
(model of the ORDER BY created_at DESC step). -/
def insertDesc (m : Message) : List Message → List Message
  | [] => [m]
  | x :: xs =>
      if x.created_at ≤ m.created_at then m :: x :: xs else x :: insertDesc m xs

/-- Sort messages by `created_at` descending (ORDER BY created_at DESC;
timestamps are pairwise distinct in every reachable store, so any comparison
sort computes the same list). -/
def sortDesc : List Message → List Message
  | [] => []
  | x :: xs => insertDesc x (sortDesc xs)

/-- `ConversationManager.get_messages` (lines 93-109): SELECT messages of the
conversation ORDER BY created_at DESC LIMIT `limit`, then reverse in Python.
PostgreSQL rejects a negative LIMIT argument, so a negative `limit` raises
rather than returning rows. -/
def ConversationManager.get_messages (w : W) (conversation_id : Nat)
    (limit : Int) : W × Except Err (List Message) :=
  if limit < 0 then (w, .error .limitNegative)
  else
    let msgs :=
      (sortDesc (w.db.messages.filter
        (fun m => m.conversation_id == conversation_id))).take limit.toNat
    (w, .ok msgs.reverse)

/-- The welcome text of `handle_start_command`
(src/services/telegram_handler.py lines 98-103). -/
def welcome_message : String :=
  "👋 Welcome to Dev2Production!\n\nI\x27m your AI assistant for DevOps, Cloud Architecture, and Custom Software Development.\n\nHow can I help you today?"

/-- The `inline_keyboard` rows of the /start keyboard (lines 105-112), each
button as (label, callback_data). -/
def start_keyboard : List (List (String × String)) :=
  [[("🚀 Start a Project", "action:start_project")],
   [("💬 Ask Questions", "action:ask_questions")],
   [("📚 Learn About Services", "action:services")],
   [("👤 Talk to Human", "action:escalate")]]

/-- `TelegramHandler.handle_start_command` (lines 95-118). -/
def TelegramHandler.handle_start_command (w : W) (chat_id : Int) :
    W × Except Err Unit :=
  TelegramClient.send_message w chat_id welcome_message none (some start_keyboard)

/-- The static help text of `handle_help_command` (lines 123-132). -/
def help_text : String :=
  "🤖 *Bot Commands*\n\n/start - Start conversation\n/help - Show this help message\n\n*What I can do:*\n• Answer questions about DevOps & Cloud\n• Help you start a new project\n• Connect you with our team\n• Provide pricing information"

/-- `TelegramHandler.handle_help_command` (lines 120-138). -/
def TelegramHandler.handle_help_command (w : W) (chat_id : Int) :
    W × Except Err Unit :=
  TelegramClient.send_message w chat_id help_text (some "Markdown") none

/-- `TelegramHandler.handle_command` (lines 80-93): dispatch on the full
message text by string equality. -/
def TelegramHandler.handle_command (w : W) (chat_id : Int) (command : String) :
    W × Except Err Unit :=
  if command == "/start" then TelegramHandler.handle_start_command w chat_id
  else if command == "/help" then TelegramHandler.handle_help_command w chat_id
  else TelegramClient.send_message w chat_id ("Unknown command: " ++ command) none none

/-- The fields lines 39-43 of handle_message extract from the message dict. -/
structure MsgFields where
  chat_id : Int
  telegram_user_id : Int
  username : Option String
  text : String
  message_id : Int
deriving DecidableEq, Repr

/-- The extraction steps of `handle_message` (lines 39-43), in source order:
`message["chat"]["id"]`, `message["from"]["id"]`,
`message["from"].get("username")`, `message.get("text", "")`,
`message["message_id"]`.  Each subscript may raise; ids are integers and
text/username strings per the platform schema (a value of another shape is
modelled as TypeError at the extraction step). -/
def extractMessageFields (message : Json) : Except Err MsgFields := do
  let chat ← message.item "chat"
  let chat_id ← (← chat.item "id").asInt
  let sender ← message.item "from"
  let telegram_user_id ← (← sender.item "id").asInt
  let username ←
    match sender.lookup "username" with
    | none => pure none
    | some Json.null => pure none
    | some v => do pure (some (← v.asStr))
  let text ←
    match message.lookup "text" with
    | none => pure ""
    | some v => v.asStr
  let message_id ← (← message.item "message_id").asInt
  pure (MsgFields.mk chat_id telegram_user_id username text message_id)

/-- Python `s.startswith(pre)`: the first `len(pre)` characters of `s` equal
`pre` (kernel-computable model of the library call). -/
def startswith (s pre : String) : Bool :=
  s.data.take pre.data.length == pre.data

/-- Lines 66-75 of `handle_message`: command dispatch when the text starts
with "/", generic acknowledgment otherwise. -/
def TelegramHandler.replyStep (w : W) (chat_id : Int) (text : String) :
    W × Except Err Unit :=
  if startswith text "/" then TelegramHandler.handle_command w chat_id text
  else
    TelegramClient.send_message w chat_id
      "Message received! Full bot functionality coming soon." none none

/-- Lines 58-75 of `handle_message`: persist the inbound text as a USER
message on the resolved conversation, tagged with the platform message id,
then reply. -/
def TelegramHandler.persistAndReply (w1 : W) (conversation : Conversation)
    (f : MsgFields) : W × Except Err Unit :=
  match ConversationManager.add_message w1 conversation.id "user" f.text
      (some f.message_id) none with
  | (w2, .error e) => (w2, .error e)
  | (w2, .ok _) => TelegramHandler.replyStep w2 f.chat_id f.text

/-- The body of the `try` block of `TelegramHandler.handle_message`
(lines 37-75): extract fields, get-or-create the conversation, persist the
inbound USER message, then reply. -/
def TelegramHandler.handle_message_try (w : W) (message : Json) :
    W × Except Err Unit :=
  match extractMessageFields message with
  | .error e => (w, .error e)
  | .ok f =>
      match ConversationManager.get_or_create w f.telegram_user_id f.username with
      | (w1, .error e) => (w1, .error e)
      | (w1, .ok conversation) => TelegramHandler.persistAndReply w1 conversation f

/-- `TelegramHandler.handle_message` (lines 35-78): the whole body is wrapped
in `try/except Exception`, so every error is swallowed (logged only). -/
def TelegramHandler.handle_message (w : W) (message : Json) : W :=
  (TelegramHandler.handle_message_try w message).fst

/-- The canned reply of the `action:services` callback (lines 166-175). -/
def services_text : String :=
  "📚 *Our Services:*\n\n• DevOps & CI/CD Pipeline Setup\n• Cloud Architecture (AWS, Azure, GCP)\n• Kubernetes & Container Orchestration\n• Infrastructure as Code\n• Custom Software Development\n• System Integration\n\nVisit: dev2production.tech"

/-- The action-token dispatch of `handle_callback_query` (lines 152-182):
a fixed table of canned replies; an unrecognized token falls through with no
reply and no error. -/
def TelegramHandler.dispatchStep (w1 : W) (data : String) (chat_id : Int) :
    W × Except Err Unit :=
  if data == "action:start_project" then
    TelegramClient.send_message w1 chat_id
      "📋 Project intake flow coming soon! Please describe your project." none none
  else if data == "action:ask_questions" then
    TelegramClient.send_message w1 chat_id
      "💬 Ask me anything about our services!" none none
  else if data == "action:services" then
    TelegramClient.send_message w1 chat_id services_text (some "Markdown") none
  else if data == "action:escalate" then
    TelegramClient.send_message w1 chat_id
      "👤 Connecting you to our team... (Feature coming soon!)" none none
  else (w1, .ok ())

/-- The body of the `try` block of `handle_callback_query` (lines 143-182):
extract id/data/chat id, answer the callback, then dispatch on the action
token. -/
def TelegramHandler.handle_callback_query_try (w : W) (callback_query : Json) :
    W × Except Err Unit :=
  match (do
      let query_id ← (← callback_query.item "id").asStr
      let data ← (← callback_query.item "data").asStr
      let chat_id ←
        (← (← (← callback_query.item "message").item "chat").item "id").asInt
      pure (query_id, data, chat_id) : Except Err (String × String × Int)) with
  | .error e => (w, .error e)
  | .ok (query_id, data, chat_id) =>
      match TelegramClient.answer_callback_query w query_id none false with
      | (w1, .error e) => (w1, .error e)
      | (w1, .ok _) => TelegramHandler.dispatchStep w1 data chat_id

/-- `TelegramHandler.handle_callback_query` (lines 140-185): the whole body is
wrapped in `try/except Exception`, so every error — including a failed
acknowledgment — is swallowed, and the dispatch after a failed
acknowledgment is skipped. -/
def TelegramHandler.handle_callback_query (w : W) (callback_query : Json) : W :=
  (TelegramHandler.handle_callback_query_try w callback_query).fst

/-- `TelegramHandler.process_update` (lines 21-33): `update.get("message")`
then `update.get("callback_query")`, each tested for Python truthiness; any
other shape is logged and dropped.  On a non-dict body, `.get` raises
AttributeError (caught by the webhook endpoint). -/
def TelegramHandler.process_update (w : W) (update : Json) : W × Except Err Unit :=
  match update with
  | Json.obj _ =>
      match update.truthyGet "message" with
      | some message => (TelegramHandler.handle_message w message, .ok ())
      | none =>
          match update.truthyGet "callback_query" with
          | some callback_query =>
              (TelegramHandler.handle_callback_query w callback_query, .ok ())
          | none => (w, .ok ())
  | _ => (w, .error .attributeError)

/-- An HTTP response of the webhook endpoint. -/
structure HttpResponse where
  status : Nat
  body : Json

/-- HTTP 200 with body {"ok": true} (written `return {"ok": True}` both on
success and in the `except` branch of the endpoint). -/
def okResponse : HttpResponse :=
  HttpResponse.mk 200 (Json.obj [("ok", Json.bool true)])

/-- The HTTPException(403) FastAPI renders for a secret mismatch. -/
def forbiddenResponse : HttpResponse :=
  HttpResponse.mk 403 (Json.obj [("detail", Json.str "Invalid secret")])

/-- `telegram_webhook` (src/api/webhooks.py lines 14-44): reject on secret
mismatch before anything else; afterwards parse the body and process it
inside `try/except Exception`, returning 200 {"ok": true} in the `try` and
in the `except` branch alike.  `header` is the value of the
X-Telegram-Bot-Api-Secret-Token header (`none` when absent), `body` the
outcome of `request.json()`. -/
def telegram_webhook (w : W) (configured_secret : String)
    (header : Option String) (body : Except Err Json) : W × HttpResponse :=
  if header != some configured_secret then (w, forbiddenResponse)
  else
    match body with
    | .error _ => (w, okResponse)
    | .ok update => ((TelegramHandler.process_update w update).fst, okResponse)

/-!
Interleaving model for the concurrency contract of `get_or_create`.

The hosting server runs one `get_or_create` per webhook call, many calls
concurrently.  Each call performs two atomic storage steps against the shared
committed store: the SELECT of the ACTIVE conversation, and — when the SELECT
found none — the INSERT+COMMIT, at which PostgreSQL enforces the UNIQUE
constraint on `telegram_user_id` against all committed rows (a concurrent
committed duplicate makes the COMMIT fail with IntegrityError).  A process is
therefore a program counter over {start, afterSelect, done}, and a run is an
arbitrary interleaving (schedule) of the steps of n processes, all invoking
`get_or_create` for the same user.
-/

/-- Program counter of one in-flight `get_or_create` call. -/
inductive PC where
  | start | afterSelect | done
deriving DecidableEq, Repr

/-- One atomic storage step of `get_or_create uid uname` from a program
counter, against the committed store. -/
def gocStep (uid : Int) (uname : Option String) (db : DB) : PC → DB × PC
  | PC.start =>
      match scalar_one_or_none (activeFor db.conversations uid) with
      | .error _ => (db, PC.done)
      | .ok (some _) => (db, PC.done)
      | .ok none => (db, PC.afterSelect)
  | PC.afterSelect =>
      if (rowsFor db.conversations uid).isEmpty then
        (DB.mk
          (db.conversations ++ [Conversation.mk db.nextId uid uname ConversationStatus.active])
          db.messages (db.nextId + 1),
         PC.done)
      else (db, PC.done)
  | PC.done => (db, PC.done)

/-- Run a schedule: each entry names the process that performs its next step
(out-of-range entries are skipped). -/
def runSched (uid : Int) (uname : Option String) :
    List Nat → DB × List PC → DB × List PC
  | [], s => s
  | i :: rest, (db, pcs) =>
      match pcs[i]? with
      | none => runSched uid uname rest (db, pcs)
      | some pc =>
          let s := gocStep uid uname db pc
          runSched uid uname rest (s.fst, pcs.set i s.snd)

/-- The messages of one conversation in store (chronological) order. -/
def msgsChron (db : DB) (conversation_id : Nat) : List Message :=
  db.messages.filter (fun m => m.conversation_id == conversation_id)

/-- Whether an outbound call is a send-message call. -/
def isSendMessage : ApiCall → Bool
  | ApiCall.sendMessage _ _ _ _ => true
  | ApiCall.answerCallbackQuery _ _ _ => false

/-- The program invariant of the concurrent `get_or_create` runs for one
user: at most one committed row for the user (the UNIQUE constraint), every
committed row for the user is ACTIVE, and once some process has finished at
least one row for the user is committed. -/
def gocInv (uid : Int) (s : DB × List PC) : Prop :=
  (rowsFor s.fst.conversations uid).length ≤ 1
  ∧ (∀ c ∈ rowsFor s.fst.conversations uid, c.status = ConversationStatus.active)
  ∧ (PC.done ∈ s.snd → 1 ≤ (rowsFor s.fst.conversations uid).length)

/-- An empty store in its initial state. -/
def emptyW : W := W.mk (DB.mk [] [] 0) [] []

/-- The inbound message dict of the /start scenario:
{"chat":{"id":1},"from":{"id":42},"text":"/start","message_id":9}. -/
def startMsgJson : Json :=
  Json.obj [("chat", Json.obj [("id", Json.int 1)]),
            ("from", Json.obj [("id", Json.int 42)]),
            ("text", Json.str "/start"),
            ("message_id", Json.int 9)]

/-- The /start scenario update payload. -/
def startUpdate : Json :=
  Json.obj [("update_id", Json.int 100), ("message", startMsgJson)]

/-- A callback-press payload with the given id, action token and chat id. -/
def mkCallback (query_id : String) (data : String) (chat_id : Int) : Json :=
  Json.obj [("id", Json.str query_id), ("data", Json.str data),
            ("message", Json.obj [("chat", Json.obj [("id", Json.int chat_id)])])]

/-- The `action:services` callback payload of the §8 scenario. -/
def cbServices : Json := mkCallback "q1" "action:services" 1

/-- A world whose next outbound call fails (delivery error on the
acknowledgment). -/
def wAckFails : W := W.mk (DB.mk [] [] 0) [] [false]

/-- The conversation row of the five-message example store. -/
def exConv : Conversation := Conversation.mk 0 5 none ConversationStatus.active

/-- Message mᵢ of the five-message example store. -/
def exMsg (i : Nat) : Message :=
  Message.mk i 0 SenderType.user ("m" ++ toString i) none false none none none none i

/-- A store holding one conversation with five messages m1..m5, inserted in
order. -/
def w5ex : W :=
  W.mk (DB.mk [exConv] [exMsg 1, exMsg 2, exMsg 3, exMsg 4, exMsg 5] 6) [] []

/-! ## Helper lemmas -/

theorem str_pos_of_ne_empty (s : String) (h : s ≠ "") : 0 < s.length := by
  cases s with
  | mk data =>
    cases data with
    | nil => exact absurd rfl h
    | cons c cs =>
      show 0 < (List.cons c cs).length
      simp

theorem send_message_fst (w : W) (chat_id : Int) (text : String)
    (p : Option String) (r : Option (List (List (String × String)))) :
    (TelegramClient.send_message w chat_id text p r).fst
      = W.mk w.db (w.trace ++ [ApiCall.sendMessage chat_id text p r]) w.net.tail := by
  unfold TelegramClient.send_message
  split <;> rfl

theorem answer_callback_query_fst (w : W) (qid : String) (t : Option String)
    (a : Bool) :
    (TelegramClient.answer_callback_query w qid t a).fst
      = W.mk w.db (w.trace ++ [ApiCall.answerCallbackQuery qid t a]) w.net.tail := by
  unfold TelegramClient.answer_callback_query
  split <;> rfl

theorem handle_command_db (w : W) (chat_id : Int) (command : String) :
    (TelegramHandler.handle_command w chat_id command).fst.db = w.db := by
  unfold TelegramHandler.handle_command TelegramHandler.handle_start_command
    TelegramHandler.handle_help_command
  split
  · rw [send_message_fst]
  · split
    · rw [send_message_fst]
    · rw [send_message_fst]

theorem replyStep_db (w : W) (chat_id : Int) (text : String) :
    (TelegramHandler.replyStep w chat_id text).fst.db = w.db := by
  unfold TelegramHandler.replyStep
  split
  · exact handle_command_db w chat_id text
  · rw [send_message_fst]

theorem add_message_conversations (w : W) (cid : Nat) (st : String)
    (content : String) (tmid : Option Int) (meta : Option LlmMetadata) :
    (ConversationManager.add_message w cid st content tmid meta).fst.db.conversations
      = w.db.conversations := by
  unfold ConversationManager.add_message
  rcases SenderType.ofString st with _ | s
  · rfl
  · rcases meta with _ | md <;> simp only [] <;> split <;> rfl

theorem take_app_singleton {α : Type} (l rest : List α) (a : α) :
    ((l ++ [a]) ++ rest).take (l.length + 1) = l ++ [a] := by
  have h : l.length + 1 = (l ++ [a]).length := by simp
  rw [h, List.take_left]

theorem activeFor_filter (l : List Conversation) (uid : Int) :
    activeFor l uid
      = (rowsFor l uid).filter (fun c => c.status == ConversationStatus.active) := by
  unfold activeFor rowsFor
  rw [List.filter_filter]
  exact List.filter_congr (fun a _ => Bool.and_comm _ _)

theorem rowsFor_append (l₁ l₂ : List Conversation) (uid : Int) :
    rowsFor (l₁ ++ l₂) uid = rowsFor l₁ uid ++ rowsFor l₂ uid := by
  unfold rowsFor
  rw [List.filter_append]

theorem activeFor_append (l₁ l₂ : List Conversation) (uid : Int) :
    activeFor (l₁ ++ l₂) uid = activeFor l₁ uid ++ activeFor l₂ uid := by
  unfold activeFor
  rw [List.filter_append]

theorem activeFor_length_le (l : List Conversation) (uid : Int) :
    (activeFor l uid).length ≤ (rowsFor l uid).length := by
  rw [activeFor_filter]
  exact List.length_filter_le _ _

theorem rowsFor_singleton_self (uid : Int) (c : Conversation)
    (h : c.telegram_user_id = uid) : rowsFor [c] uid = [c] := by
  unfold rowsFor
  simp [List.filter, h]

theorem activeFor_singleton_self (uid : Int) (c : Conversation)
    (h : c.telegram_user_id = uid) (ha : c.status = ConversationStatus.active) :
    activeFor [c] uid = [c] := by
  unfold activeFor
  simp [List.filter, h, ha]

theorem scalar_ok_none_iff (l : List Conversation) :
    scalar_one_or_none l = Except.ok none ↔ l = [] := by
  cases l with
  | nil => simp [scalar_one_or_none]
  | cons a t =>
    cases t with
    | nil => simp [scalar_one_or_none]
    | cons b t2 => simp [scalar_one_or_none]

theorem scalar_ok_some_iff (l : List Conversation) (c : Conversation) :
    scalar_one_or_none l = Except.ok (some c) ↔ l = [c] := by
  cases l with
  | nil => simp [scalar_one_or_none]
  | cons a t =>
    cases t with
    | nil => simp [scalar_one_or_none]
    | cons b t2 => simp [scalar_one_or_none]

theorem insertDesc_append (m : Message) (r : List Message)
    (h : ∀ x ∈ r, ¬ x.created_at ≤ m.created_at) : insertDesc m r = r ++ [m] := by
  induction r with
  | nil => rfl
  | cons x xs ih =>
    unfold insertDesc
    rw [if_neg (h x (List.mem_cons_self x xs))]
    rw [ih (fun y hy => h y (List.mem_cons_of_mem x hy))]
    rfl

theorem sortDesc_of_sorted (l : List Message)
    (h : l.Pairwise (fun a b => a.created_at < b.created_at)) :
    sortDesc l = l.reverse := by
  induction l with
  | nil => rfl
  | cons x xs ih =>
    rw [List.pairwise_cons] at h
    unfold sortDesc
    rw [ih h.2, insertDesc_append]
    · simp
    · intro y hy
      have hx := h.1 y (by simpa using hy)
      omega

/-! ## Claim theorems -/

/-- C1: a webhook call whose secret header matches the configured secret is
answered HTTP 200 {"ok": true} whatever the body and whatever happens during
update processing (every processing exception is swallowed); a call whose
header does not match is answered HTTP 403 with the world untouched — no
Conversation Store write and no Outbound Action Client call. -/
theorem webhook_ack_contract (w : W) (secret : String) (header : Option String)
    (body : Except Err Json) :
    (header = some secret →
      (telegram_webhook w secret header body).snd = okResponse)
    ∧ (header ≠ some secret →
      telegram_webhook w secret header body = (w, forbiddenResponse)) := by
  constructor
  · intro h
    subst h
    unfold telegram_webhook
    rw [bne_self_eq_false]
    cases body with
    | error e => rfl
    | ok u => rfl
  · intro h
    unfold telegram_webhook
    rw [if_pos]
    exact bne_iff_ne.mpr h

/-- C1 witness: both branches of the contract at a concrete call. -/
theorem webhook_ack_contract_witness :
    (telegram_webhook emptyW "s" (some "s") (Except.ok startUpdate)).snd = okResponse
    ∧ telegram_webhook emptyW "s" (some "x") (Except.ok startUpdate)
        = (emptyW, forbiddenResponse) :=
  And.intro
    ((webhook_ack_contract emptyW "s" (some "s") (Except.ok startUpdate)).1 rfl)
    ((webhook_ack_contract emptyW "s" (some "x") (Except.ok startUpdate)).2 (by decide))

/-- C3: `add_message` with a conversation id that exists nowhere in the store
fails — the commit is rejected because the referenced conversation is absent
(NotFoundError in the design taxonomy) — and the whole world, in particular
the message store, is unchanged. -/
theorem add_message_missing_conversation (w : W) (cid : Nat)
    (sender_type : String) (content : String) (tmid : Option Int)
    (meta : Option LlmMetadata)
    (hsender : (SenderType.ofString sender_type).isSome = true)
    (habsent : ∀ c ∈ w.db.conversations, c.id ≠ cid) :
    ConversationManager.add_message w cid sender_type content tmid meta
      = (w, Except.error Err.notFoundError) := by
  unfold ConversationManager.add_message
  cases hst : SenderType.ofString sender_type with
  | none => rw [hst] at hsender; exact absurd hsender (by simp)
  | some st =>
    have hany : (w.db.conversations.any (fun c => c.id == cid)) = false := by
      rw [List.any_eq_false]
      intro c hc
      simp only [beq_iff_eq]
      exact habsent c hc
    rw [hany]
    simp

/-- C3 witness: a concrete call against the empty store. -/
theorem add_message_missing_conversation_witness :
    ConversationManager.add_message emptyW 3 "user" "hello" none none
      = (emptyW, Except.error Err.notFoundError) :=
  add_message_missing_conversation emptyW 3 "user" "hello" none none
    (by decide) (by decide)

/-- C7 counterexample: on the five-message store, `get_messages` with
limit -1 raises (PostgreSQL rejects a negative LIMIT) instead of returning
an empty sequence, and in particular returns no `ok` value at all. -/
theorem get_messages_negative_limit_fails :
    (ConversationManager.get_messages w5ex 0 (-1)).snd
      = Except.error Err.limitNegative := rfl

/-- C7 amended: limit 0 returns the empty sequence without touching the
world; a negative limit makes the storage query fail with the negative-LIMIT
error rather than return an empty sequence. -/
theorem get_messages_nonpositive_limit (w : W) (cid : Nat) (limit : Int) :
    (limit = 0 →
      ConversationManager.get_messages w cid limit = (w, Except.ok []))
    ∧ (limit < 0 →
      (ConversationManager.get_messages w cid limit).snd
        = Except.error Err.limitNegative) := by
  constructor
  · intro h0
    subst h0
    unfold ConversationManager.get_messages
    rw [if_neg (by omega)]
    rfl
  · intro hneg
    unfold ConversationManager.get_messages
    rw [if_pos hneg]

/-- C7 amended witness: both branches at concrete limits on the five-message
store. -/
theorem get_messages_nonpositive_limit_witness :
    ConversationManager.get_messages w5ex 0 0 = (w5ex, Except.ok [])
    ∧ (ConversationManager.get_messages w5ex 0 (-2)).snd
        = Except.error Err.limitNegative :=
  And.intro
    ((get_messages_nonpositive_limit w5ex 0 0).1 rfl)
    ((get_messages_nonpositive_limit w5ex 0 (-2)).2 (by decide))

theorem dispatchStep_trace (w1 : W) (data : String) (chat_id : Int) :
    ∃ rest, (TelegramHandler.dispatchStep w1 data chat_id).fst.trace
      = w1.trace ++ rest := by
  unfold TelegramHandler.dispatchStep
  split
  · exact ⟨_, by rw [send_message_fst]⟩
  · split
    · exact ⟨_, by rw [send_message_fst]⟩
    · split
      · exact ⟨_, by rw [send_message_fst]⟩
      · split
        · exact ⟨_, by rw [send_message_fst]⟩
        · exact ⟨[], by simp⟩

theorem take_len_succ {α : Type} (l : List α) (a : α) :
    (l ++ [a]).take (l.length + 1) = l ++ [a] := by
  have h := take_app_singleton l [] a
  rw [List.append_nil] at h
  exact h

/-- C4 counterexample: in the §8 services scenario with a failing
acknowledgment call, the run attempts only the acknowledgment — zero
send-message calls are made, not exactly one. -/
theorem callback_ack_failure_no_reply :
    (TelegramHandler.handle_callback_query wAckFails cbServices).trace
        = [ApiCall.answerCallbackQuery "q1" none false]
    ∧ ((TelegramHandler.handle_callback_query wAckFails cbServices).trace.countP
        isSendMessage) = 0 :=
  And.intro rfl rfl

/-- C4 amended: for every callback press the acknowledgment is attempted
first, before any reply and independent of the action token; when the
acknowledgment succeeds and the token is `action:services`, exactly one
formatted services message follows it; when the acknowledgment call fails,
the exception is swallowed and no reply at all is sent. -/
theorem callback_ack_then_reply (w : W) (query_id : String) (dataStr : String)
    (chat_id : Int) :
    ((TelegramHandler.handle_callback_query w (mkCallback query_id dataStr chat_id)).trace.take
        (w.trace.length + 1)
      = w.trace ++ [ApiCall.answerCallbackQuery query_id none false])
    ∧ (w.netOk = true → dataStr = "action:services" →
      (TelegramHandler.handle_callback_query w (mkCallback query_id dataStr chat_id)).trace
        = w.trace ++ [ApiCall.answerCallbackQuery query_id none false,
            ApiCall.sendMessage chat_id services_text (some "Markdown") none])
    ∧ (w.netOk = false →
      (TelegramHandler.handle_callback_query w (mkCallback query_id dataStr chat_id)).trace
        = w.trace ++ [ApiCall.answerCallbackQuery query_id none false]) := by
  have h0 : TelegramHandler.handle_callback_query w (mkCallback query_id dataStr chat_id)
      = (match TelegramClient.answer_callback_query w query_id none false with
         | (w1, Except.error e) => (w1, Except.error e)
         | (w1, Except.ok _) => TelegramHandler.dispatchStep w1 dataStr chat_id).fst := rfl
  cases hnet : w.netOk with
  | false =>
    have hack : TelegramClient.answer_callback_query w query_id none false
        = (W.mk w.db (w.trace ++ [ApiCall.answerCallbackQuery query_id none false]) w.net.tail,
           Except.error Err.deliveryError) := by
      unfold TelegramClient.answer_callback_query
      rw [hnet]
      rfl
    rw [h0, hack]
    refine And.intro ?_ (And.intro ?_ ?_)
    · exact take_len_succ w.trace _
    · intro htrue
      simp at htrue
    · intro _
      rfl
  | true =>
    have hack : TelegramClient.answer_callback_query w query_id none false
        = (W.mk w.db (w.trace ++ [ApiCall.answerCallbackQuery query_id none false]) w.net.tail,
           Except.ok ()) := by
      unfold TelegramClient.answer_callback_query
      rw [hnet]
      rfl
    rw [h0, hack]
    refine And.intro ?_ (And.intro ?_ ?_)
    · obtain ⟨rest, hrest⟩ :=
        dispatchStep_trace
          (W.mk w.db (w.trace ++ [ApiCall.answerCallbackQuery query_id none false]) w.net.tail)
          dataStr chat_id
      simp only []
      rw [hrest]
      exact take_app_singleton w.trace rest _
    · intro _ hd
      subst hd
      have hsvc : TelegramHandler.dispatchStep
            (W.mk w.db (w.trace ++ [ApiCall.answerCallbackQuery query_id none false]) w.net.tail)
            "action:services" chat_id
          = TelegramClient.send_message
              (W.mk w.db (w.trace ++ [ApiCall.answerCallbackQuery query_id none false]) w.net.tail)
              chat_id services_text (some "Markdown") none := rfl
      simp only []
      rw [hsvc, send_message_fst]
      simp
    · intro hfalse
      simp at hfalse

/-- C4 amended witness: the services scenario with a succeeding and with a
failing acknowledgment at concrete inputs. -/
theorem callback_ack_then_reply_witness :
    ((TelegramHandler.handle_callback_query emptyW cbServices).trace
        = [ApiCall.answerCallbackQuery "q1" none false,
           ApiCall.sendMessage 1 services_text (some "Markdown") none])
    ∧ ((TelegramHandler.handle_callback_query wAckFails (mkCallback "q2" "action:services" 3)).trace
        = [ApiCall.answerCallbackQuery "q2" none false]) :=
  And.intro
    (((callback_ack_then_reply emptyW "q1" "action:services" 1).2.1 rfl rfl).trans rfl)
    (((callback_ack_then_reply wAckFails "q2" "action:services" 3).2.2 rfl).trans rfl)

theorem handle_command_unknown (w : W) (chat_id : Int) (text : String)
    (hns : text ≠ "/start") (hnh : text ≠ "/help") :
    (TelegramHandler.handle_command w chat_id text).fst.trace
      = w.trace ++ [ApiCall.sendMessage chat_id ("Unknown command: " ++ text) none none] := by
  unfold TelegramHandler.handle_command
  rw [show (text == "/start") = false from beq_eq_false_iff_ne.mpr hns]
  rw [show (text == "/help") = false from beq_eq_false_iff_ne.mpr hnh]
  simp only [Bool.false_eq_true, if_false]
  rw [send_message_fst]

/-- C8: an inbound command text that is neither "/start" nor "/help" produces
exactly one outbound reply, whose text is exactly "Unknown command: "
followed by the literal input text. -/
theorem unknown_command_echo (w : W) (chat_id : Int) (text : String)
    (_hslash : startswith text "/" = true)
    (hns : text ≠ "/start") (hnh : text ≠ "/help") :
    (TelegramHandler.handle_command w chat_id text).fst.trace
      = w.trace ++ [ApiCall.sendMessage chat_id ("Unknown command: " ++ text) none none] :=
  handle_command_unknown w chat_id text hns hnh

/-- C8 witness: the "/bogus" scenario of §8. -/
theorem unknown_command_echo_witness :
    (TelegramHandler.handle_command emptyW 1 "/bogus").fst.trace
      = [ApiCall.sendMessage 1 "Unknown command: /bogus" none none] :=
  (unknown_command_echo emptyW 1 "/bogus" (by decide) (by decide) (by decide)).trans rfl

/-- C10: dispatch compares the entire message text by string equality — a
recognized command followed by any further characters is treated as an
unknown command (the unknown-command reply echoing the full text is the
only call emitted, so neither the /start nor the /help handler runs). -/
theorem command_dispatch_exact (w : W) (chat_id : Int) (s : String)
    (hs : s ≠ "") :
    ((TelegramHandler.handle_command w chat_id ("/start" ++ s)).fst.trace
      = w.trace
        ++ [ApiCall.sendMessage chat_id ("Unknown command: " ++ ("/start" ++ s)) none none])
    ∧ ((TelegramHandler.handle_command w chat_id ("/help" ++ s)).fst.trace
      = w.trace
        ++ [ApiCall.sendMessage chat_id ("Unknown command: " ++ ("/help" ++ s)) none none]) := by
  have hpos := str_pos_of_ne_empty s hs
  have h6 : ("/start" : String).length = 6 := rfl
  have h5 : ("/help" : String).length = 5 := rfl
  refine And.intro ?_ ?_
  · refine handle_command_unknown w chat_id _ ?_ ?_
    · intro heq
      have hl := congrArg String.length heq
      rw [String.length_append, h6] at hl
      omega
    · intro heq
      have hl := congrArg String.length heq
      rw [String.length_append, h6, h5] at hl
      omega
  · refine handle_command_unknown w chat_id _ ?_ ?_
    · intro heq
      have hd := congrArg String.data heq
      rw [String.data_append] at hd
      have h1 : (("/help" : String).data ++ s.data)[1]? = some 'h' := rfl
      rw [hd] at h1
      have h2 : (("/start" : String).data)[1]? = some 's' := rfl
      rw [h2] at h1
      exact absurd (Option.some.inj h1) (by decide)
    · intro heq
      have hl := congrArg String.length heq
      rw [String.length_append, h5] at hl
      omega

/-- C10 witness: "/start now" and "/help now" both draw the unknown-command
echo, not the welcome or help reply. -/
theorem command_dispatch_exact_witness :
    ((TelegramHandler.handle_command emptyW 1 ("/start" ++ " now")).fst.trace
      = [ApiCall.sendMessage 1 "Unknown command: /start now" none none])
    ∧ ((TelegramHandler.handle_command emptyW 1 ("/help" ++ " now")).fst.trace
      = [ApiCall.sendMessage 1 "Unknown command: /help now" none none]) :=
  And.intro
    ((command_dispatch_exact emptyW 1 " now" (by decide)).1.trans rfl)
    ((command_dispatch_exact emptyW 1 " now" (by decide)).2.trans rfl)

/-- C6: for a positive limit, `get_messages` returns the at-most-`limit`
most recently created messages of the conversation — the final `limit`
entries of its chronological message list — in chronological order. -/
theorem get_messages_recent_chron (w : W) (cid : Nat) (limit : Int)
    (hpos : 0 < limit)
    (hsorted : List.Pairwise (fun a b => a.created_at < b.created_at) w.db.messages) :
    ConversationManager.get_messages w cid limit
      = (w, Except.ok ((msgsChron w.db cid).drop
          ((msgsChron w.db cid).length - limit.toNat))) := by
  unfold ConversationManager.get_messages
  rw [if_neg (by omega)]
  have hs : sortDesc (w.db.messages.filter (fun m => m.conversation_id == cid))
      = (w.db.messages.filter (fun m => m.conversation_id == cid)).reverse :=
    sortDesc_of_sorted _ (hsorted.filter _)
  simp only [hs, List.take_reverse, List.reverse_reverse]
  rfl

/-- C6 witness: on the store holding m1..m5, limit 3 yields [m3, m4, m5]. -/
theorem get_messages_recent_chron_witness :
    ConversationManager.get_messages w5ex 0 3
      = (w5ex, Except.ok [exMsg 3, exMsg 4, exMsg 5]) :=
  (get_messages_recent_chron w5ex 0 3 (by decide) (by decide)).trans rfl

theorem get_or_create_spec (w : W) (uid : Int) (un : Option String) :
    ConversationManager.get_or_create w uid un
      = match scalar_one_or_none (activeFor w.db.conversations uid) with
        | .error e => (w, .error e)
        | .ok (some c) => (w, .ok c)
        | .ok none =>
            if (rowsFor w.db.conversations uid).isEmpty then
              (W.mk (DB.mk (w.db.conversations
                  ++ [Conversation.mk w.db.nextId uid un ConversationStatus.active])
                  w.db.messages (w.db.nextId + 1)) w.trace w.net,
               .ok (Conversation.mk w.db.nextId uid un ConversationStatus.active))
            else (w, .error .integrityError) := rfl

theorem dispatchStep_db (w1 : W) (data : String) (chat_id : Int) :
    (TelegramHandler.dispatchStep w1 data chat_id).fst.db = w1.db := by
  unfold TelegramHandler.dispatchStep
  split
  · rw [send_message_fst]
  · split
    · rw [send_message_fst]
    · split
      · rw [send_message_fst]
      · split
        · rw [send_message_fst]
        · rfl

theorem handle_callback_query_db (w : W) (cb : Json) :
    (TelegramHandler.handle_callback_query w cb).db = w.db := by
  unfold TelegramHandler.handle_callback_query TelegramHandler.handle_callback_query_try
  cases hex : (do
      let query_id ← (← cb.item "id").asStr
      let data ← (← cb.item "data").asStr
      let chat_id ← (← (← (← cb.item "message").item "chat").item "id").asInt
      pure (query_id, data, chat_id) : Except Err (String × String × Int)) with
  | error e => rfl
  | ok t =>
    obtain ⟨q, d, c⟩ := t
    simp only []
    cases hack : TelegramClient.answer_callback_query w q none false with
    | mk w1 r =>
      have hw1 : w1.db = w.db := by
        have h2 : (TelegramClient.answer_callback_query w q none false).fst.db
            = w1.db := by rw [hack]
        rw [answer_callback_query_fst] at h2
        exact h2.symm
      cases r with
      | error e => exact hw1
      | ok u => rw [dispatchStep_db]; exact hw1

theorem persistAndReply_conversations (w1 : W) (conv : Conversation)
    (f : MsgFields) :
    (TelegramHandler.persistAndReply w1 conv f).fst.db.conversations
      = w1.db.conversations := by
  unfold TelegramHandler.persistAndReply
  cases hadd : ConversationManager.add_message w1 conv.id "user" f.text
      (some f.message_id) none with
  | mk w2 r =>
    have h2 : (ConversationManager.add_message w1 conv.id "user" f.text
        (some f.message_id) none).fst.db.conversations
        = w2.db.conversations := by rw [hadd]
    rw [add_message_conversations] at h2
    cases r with
    | error e => exact h2.symm
    | ok msg =>
      simp only []
      rw [replyStep_db]
      exact h2.symm

/-- How one `handle_message` run changes the conversations table: nothing on
an extraction error, a lookup hit, or a constraint violation; one appended
ACTIVE row when the user had no committed row. -/
theorem handle_message_conversations (w : W) (m : Json) :
    (TelegramHandler.handle_message w m).db.conversations
      = match extractMessageFields m with
        | .error _ => w.db.conversations
        | .ok f =>
            match scalar_one_or_none (activeFor w.db.conversations f.telegram_user_id) with
            | .ok none =>
                if (rowsFor w.db.conversations f.telegram_user_id).isEmpty then
                  w.db.conversations
                    ++ [Conversation.mk w.db.nextId f.telegram_user_id f.username
                          ConversationStatus.active]
                else w.db.conversations
            | _ => w.db.conversations := by
  unfold TelegramHandler.handle_message TelegramHandler.handle_message_try
  cases hext : extractMessageFields m with
  | error e => rfl
  | ok f =>
    simp only []
    rw [get_or_create_spec]
    cases hscal : scalar_one_or_none (activeFor w.db.conversations f.telegram_user_id) with
    | error e => rfl
    | ok oc =>
      cases oc with
      | some c =>
        simp only []
        exact persistAndReply_conversations w c f
      | none =>
        simp only []
        by_cases hrows : (rowsFor w.db.conversations f.telegram_user_id).isEmpty = true
        · rw [if_pos hrows, if_pos hrows]
          exact persistAndReply_conversations _ _ f
        · rw [if_neg hrows, if_neg hrows]

theorem handle_message_replay (w : W) (m : Json) :
    (TelegramHandler.handle_message (TelegramHandler.handle_message w m) m).db.conversations
      = (TelegramHandler.handle_message w m).db.conversations := by
  rw [handle_message_conversations (TelegramHandler.handle_message w m) m]
  cases hext : extractMessageFields m with
  | error e => rfl
  | ok f =>
    simp only []
    have hA := handle_message_conversations w m
    rw [hext] at hA
    simp only [] at hA
    cases hscal : scalar_one_or_none (activeFor w.db.conversations f.telegram_user_id) with
    | error e =>
      rw [hscal] at hA
      simp only [] at hA
      rw [hA, hscal]
    | ok oc =>
      cases oc with
      | some c =>
        rw [hscal] at hA
        simp only [] at hA
        rw [hA, hscal]
      | none =>
        rw [hscal] at hA
        simp only [] at hA
        by_cases hrows : (rowsFor w.db.conversations f.telegram_user_id).isEmpty = true
        · rw [if_pos hrows] at hA
          have hempty : activeFor w.db.conversations f.telegram_user_id = [] :=
            (scalar_ok_none_iff _).mp hscal
          have hact2 : activeFor
              (TelegramHandler.handle_message w m).db.conversations f.telegram_user_id
              = [Conversation.mk w.db.nextId f.telegram_user_id f.username
                  ConversationStatus.active] := by
            rw [hA, activeFor_append, hempty, activeFor_singleton_self _ _ rfl rfl]
            rfl
          have hscal2 : scalar_one_or_none (activeFor
              (TelegramHandler.handle_message w m).db.conversations f.telegram_user_id)
              = Except.ok (some (Conversation.mk w.db.nextId f.telegram_user_id f.username
                  ConversationStatus.active)) := by
            rw [hact2]
            rfl
          rw [hscal2]
        · rw [if_neg hrows] at hA
          rw [hA, hscal]
          simp only []
          rw [if_neg hrows]

/-- C9: replaying the identical update payload a second time, sequentially,
leaves the conversations table exactly as after the first run — in
particular no second ACTIVE conversation is created for the user (the second
run resolves the same conversation; only message rows may be duplicated). -/
theorem replay_no_second_conversation (w : W) (update : Json) :
    (TelegramHandler.process_update
        (TelegramHandler.process_update w update).fst update).fst.db.conversations
      = (TelegramHandler.process_update w update).fst.db.conversations := by
  cases update with
  | null => rfl
  | bool b => rfl
  | int i => rfl
  | str s => rfl
  | obj fields =>
    unfold TelegramHandler.process_update
    cases hmsg : (Json.obj fields).truthyGet "message" with
    | some m => exact handle_message_replay w m
    | none =>
      cases hcb : (Json.obj fields).truthyGet "callback_query" with
      | some cb =>
        rw [congrArg DB.conversations (handle_callback_query_db
          (TelegramHandler.handle_callback_query w cb) cb)]
      | none => rfl

theorem scalar_error_two (l : List Conversation) (e : Err)
    (h : scalar_one_or_none l = Except.error e) : 2 ≤ l.length := by
  cases l with
  | nil => simp [scalar_one_or_none] at h
  | cons a t =>
    cases t with
    | nil => simp [scalar_one_or_none] at h
    | cons b t2 => simp

theorem gocStep_start_err (uid : Int) (un : Option String) (db : DB) (e : Err)
    (h : scalar_one_or_none (activeFor db.conversations uid) = Except.error e) :
    gocStep uid un db PC.start = (db, PC.done) := by
  unfold gocStep
  rw [h]

theorem gocStep_start_found (uid : Int) (un : Option String) (db : DB)
    (c : Conversation)
    (h : scalar_one_or_none (activeFor db.conversations uid) = Except.ok (some c)) :
    gocStep uid un db PC.start = (db, PC.done) := by
  unfold gocStep
  rw [h]

theorem gocStep_start_none (uid : Int) (un : Option String) (db : DB)
    (h : scalar_one_or_none (activeFor db.conversations uid) = Except.ok none) :
    gocStep uid un db PC.start = (db, PC.afterSelect) := by
  unfold gocStep
  rw [h]

theorem gocStep_insert (uid : Int) (un : Option String) (db : DB)
    (h : (rowsFor db.conversations uid).isEmpty = true) :
    gocStep uid un db PC.afterSelect
      = (DB.mk (db.conversations
          ++ [Conversation.mk db.nextId uid un ConversationStatus.active])
          db.messages (db.nextId + 1), PC.done) := by
  unfold gocStep
  rw [if_pos h]

theorem gocStep_conflict (uid : Int) (un : Option String) (db : DB)
    (h : (rowsFor db.conversations uid).isEmpty = false) :
    gocStep uid un db PC.afterSelect = (db, PC.done) := by
  unfold gocStep
  rw [if_neg (by rw [h]; exact Bool.false_ne_true)]

theorem gocStep_inv (uid : Int) (un : Option String) (db : DB)
    (pcs : List PC) (i : Nat) (pc : PC)
    (hpc : pcs[i]? = some pc) (h : gocInv uid (db, pcs)) :
    gocInv uid ((gocStep uid un db pc).fst, pcs.set i (gocStep uid un db pc).snd) := by
  obtain ⟨h1, h2, h3⟩ := h
  cases pc with
  | start =>
    cases hscal : scalar_one_or_none (activeFor db.conversations uid) with
    | error e =>
      rw [gocStep_start_err uid un db e hscal]
      refine ⟨h1, h2, fun _ => ?_⟩
      have h2le := scalar_error_two _ _ hscal
      have hle := activeFor_length_le db.conversations uid
      simp only [] at h2le hle ⊢
      omega
    | ok oc =>
      cases oc with
      | some c =>
        rw [gocStep_start_found uid un db c hscal]
        refine ⟨h1, h2, fun _ => ?_⟩
        have hl : activeFor db.conversations uid = [c] := (scalar_ok_some_iff _ _).mp hscal
        have hle := activeFor_length_le db.conversations uid
        rw [hl] at hle
        simp only [List.length_singleton] at hle
        exact hle
      | none =>
        rw [gocStep_start_none uid un db hscal]
        refine ⟨h1, h2, fun hd => ?_⟩
        simp only [] at hd
        rcases List.mem_or_eq_of_mem_set hd with hmem | habs
        · exact h3 hmem
        · exact absurd habs (by decide)
  | afterSelect =>
    by_cases hrows : (rowsFor db.conversations uid).isEmpty = true
    · rw [gocStep_insert uid un db hrows]
      have hnil : rowsFor db.conversations uid = [] := List.isEmpty_iff.mp hrows
      have hnew : rowsFor (db.conversations
          ++ [Conversation.mk db.nextId uid un ConversationStatus.active]) uid
          = [Conversation.mk db.nextId uid un ConversationStatus.active] := by
        rw [rowsFor_append, hnil, rowsFor_singleton_self uid _ rfl]
        rfl
      refine ⟨?_, ?_, fun _ => ?_⟩
      · simp only []
        rw [hnew]
        simp
      · simp only []
        rw [hnew]
        intro c hc
        rw [List.mem_singleton] at hc
        rw [hc]
      · simp only []
        rw [hnew]
        simp
    · have hrows2 : (rowsFor db.conversations uid).isEmpty = false := by
        revert hrows
        cases (rowsFor db.conversations uid).isEmpty <;> simp
      rw [gocStep_conflict uid un db hrows2]
      refine ⟨h1, h2, fun _ => ?_⟩
      have hne : rowsFor db.conversations uid ≠ [] := by
        intro h0
        rw [h0] at hrows2
        simp at hrows2
      have := List.length_pos.mpr hne
      simp only [] at this ⊢
      omega
  | done =>
    refine ⟨h1, h2, fun _ => ?_⟩
    exact h3 (List.getElem?_mem hpc)

theorem runSched_inv (uid : Int) (un : Option String) (sched : List Nat)
    (s : DB × List PC) (h : gocInv uid s) :
    gocInv uid (runSched uid un sched s) := by
  induction sched generalizing s with
  | nil => exact h
  | cons i rest ih =>
    obtain ⟨db, pcs⟩ := s
    unfold runSched
    cases hpc : pcs[i]? with
    | none => exact ih _ h
    | some pc => exact ih _ (gocStep_inv uid un db pcs i pc hpc h)

theorem runSched_length (uid : Int) (un : Option String) (sched : List Nat)
    (s : DB × List PC) :
    (runSched uid un sched s).snd.length = s.snd.length := by
  induction sched generalizing s with
  | nil => rfl
  | cons i rest ih =>
    obtain ⟨db, pcs⟩ := s
    unfold runSched
    cases hpc : pcs[i]? with
    | none => exact ih _
    | some pc =>
      rw [ih _]
      exact List.length_set ..

/-- C2: any interleaving of n ≥ 1 concurrent `get_or_create` calls for the
same user, run to completion from a reachable store (at most one committed
row for the user, every such row ACTIVE), leaves exactly one ACTIVE
conversation row for that user: the SELECT-then-INSERT race is closed by the
UNIQUE constraint on `telegram_user_id` enforced at commit. -/
theorem get_or_create_concurrent (uid : Int) (un : Option String) (db0 : DB)
    (n : Nat) (sched : List Nat)
    (hlen : (rowsFor db0.conversations uid).length ≤ 1)
    (hact : ∀ c ∈ rowsFor db0.conversations uid, c.status = ConversationStatus.active)
    (hn : 0 < n)
    (hdone : ∀ pc ∈ (runSched uid un sched (db0, List.replicate n PC.start)).snd,
      pc = PC.done) :
    (activeFor (runSched uid un sched
        (db0, List.replicate n PC.start)).fst.conversations uid).length = 1 := by
  have hinv0 : gocInv uid (db0, List.replicate n PC.start) := by
    refine ⟨hlen, hact, fun hd => ?_⟩
    exact absurd (List.eq_of_mem_replicate hd) (by decide)
  have hinv := runSched_inv uid un sched _ hinv0
  have hlen2 : (runSched uid un sched (db0, List.replicate n PC.start)).snd.length = n := by
    rw [runSched_length]
    exact List.length_replicate ..
  have hne : (runSched uid un sched (db0, List.replicate n PC.start)).snd ≠ [] := by
    intro h0
    rw [h0] at hlen2
    simp at hlen2
    omega
  obtain ⟨pc, hpc⟩ := List.exists_mem_of_ne_nil _ hne
  have hdonepc : PC.done ∈ (runSched uid un sched (db0, List.replicate n PC.start)).snd := by
    rw [← hdone pc hpc]
    exact hpc
  obtain ⟨hle1, hallact, hge1⟩ := hinv
  have h1le := hge1 hdonepc
  have heq : activeFor (runSched uid un sched
      (db0, List.replicate n PC.start)).fst.conversations uid
      = rowsFor (runSched uid un sched
      (db0, List.replicate n PC.start)).fst.conversations uid := by
    rw [activeFor_filter]
    apply List.filter_eq_self.mpr
    intro c hc
    rw [hallact c hc]
    rfl
  rw [heq]
  omega

/-- C2 witness: two racing calls for user 7 on an empty store, interleaved
select-select-insert-insert, end with both done and exactly one ACTIVE row. -/
theorem get_or_create_concurrent_witness :
    (activeFor (runSched 7 none [0, 1, 0, 1]
        (DB.mk [] [] 0, List.replicate 2 PC.start)).fst.conversations 7).length = 1 :=
  get_or_create_concurrent 7 none (DB.mk [] [] 0) 2 [0, 1, 0, 1]
    (by decide) (by decide) (by decide) (by decide)

/-- C5: the /start scenario from a store in which user 42 has no ACTIVE
conversation (and, as in every state this dispatcher can reach, no
non-ACTIVE row either): exactly one ACTIVE conversation for external-user 42
is created, exactly one USER message with content "/start" tagged with
platform message id 9 is persisted (no bot reply is persisted), and exactly
one send-message call carrying the welcome text and the four-button keyboard
is emitted, whose action tokens are start_project, ask_questions, services
and escalate. -/
theorem start_scenario (w : W)
    (hactive : activeFor w.db.conversations 42 = [])
    (hreach : ∀ c ∈ w.db.conversations, c.telegram_user_id = 42 →
      c.status = ConversationStatus.active) :
    ((TelegramHandler.process_update w startUpdate).fst.db.conversations
        = w.db.conversations
          ++ [Conversation.mk w.db.nextId 42 none ConversationStatus.active])
    ∧ ((TelegramHandler.process_update w startUpdate).fst.db.messages
        = w.db.messages
          ++ [Message.mk (w.db.nextId + 1) w.db.nextId SenderType.user "/start" (some 9)
                false none none none none (w.db.nextId + 1)])
    ∧ ((TelegramHandler.process_update w startUpdate).fst.trace
        = w.trace ++ [ApiCall.sendMessage 1 welcome_message none (some start_keyboard)])
    ∧ (rowsFor (TelegramHandler.process_update w startUpdate).fst.db.conversations 42
        = [Conversation.mk w.db.nextId 42 none ConversationStatus.active])
    ∧ (start_keyboard.map (fun row => row.map Prod.snd)
        = [["action:start_project"], ["action:ask_questions"], ["action:services"],
           ["action:escalate"]]) := by
  have hrows : rowsFor w.db.conversations 42 = [] := by
    unfold rowsFor
    rw [List.filter_eq_nil_iff]
    intro c hc hbeq
    have huid : c.telegram_user_id = 42 := by
      have := (beq_iff_eq (a := c.telegram_user_id) (b := (42 : Int))).mp hbeq
      exact this
    have hst := hreach c hc huid
    have hmem : c ∈ activeFor w.db.conversations 42 := by
      unfold activeFor
      apply List.mem_filter.mpr
      refine ⟨hc, ?_⟩
      rw [huid, hst]
      rfl
    rw [hactive] at hmem
    exact absurd hmem (List.not_mem_nil c)
  have hgoc : ConversationManager.get_or_create w 42 none
      = (W.mk (DB.mk (w.db.conversations
            ++ [Conversation.mk w.db.nextId 42 none ConversationStatus.active])
            w.db.messages (w.db.nextId + 1)) w.trace w.net,
         Except.ok (Conversation.mk w.db.nextId 42 none ConversationStatus.active)) := by
    rw [get_or_create_spec, hactive]
    show (if (rowsFor w.db.conversations 42).isEmpty then _ else _) = _
    rw [hrows]
    rfl
  have hany : ((w.db.conversations
      ++ [Conversation.mk w.db.nextId 42 none ConversationStatus.active]).any
        (fun c => c.id == w.db.nextId)) = true := by
    rw [List.any_append]
    simp
  have hadd : ConversationManager.add_message
      (W.mk (DB.mk (w.db.conversations
          ++ [Conversation.mk w.db.nextId 42 none ConversationStatus.active])
          w.db.messages (w.db.nextId + 1)) w.trace w.net)
      w.db.nextId "user" "/start" (some 9) none
      = (W.mk (DB.mk (w.db.conversations
            ++ [Conversation.mk w.db.nextId 42 none ConversationStatus.active])
            (w.db.messages
              ++ [Message.mk (w.db.nextId + 1) w.db.nextId SenderType.user "/start" (some 9)
                    false none none none none (w.db.nextId + 1)])
            (w.db.nextId + 2)) w.trace w.net,
         Except.ok (Message.mk (w.db.nextId + 1) w.db.nextId SenderType.user "/start" (some 9)
            false none none none none (w.db.nextId + 1))) := by
    unfold ConversationManager.add_message
    show (if (w.db.conversations
        ++ [Conversation.mk w.db.nextId 42 none ConversationStatus.active]).any
          (fun c => c.id == w.db.nextId) then _ else _) = _
    rw [hany]
    rfl
  have h1 : TelegramHandler.handle_message w startMsgJson
      = (TelegramHandler.persistAndReply
          (W.mk (DB.mk (w.db.conversations
              ++ [Conversation.mk w.db.nextId 42 none ConversationStatus.active])
              w.db.messages (w.db.nextId + 1)) w.trace w.net)
          (Conversation.mk w.db.nextId 42 none ConversationStatus.active)
          (MsgFields.mk 1 42 none "/start" 9)).fst := by
    unfold TelegramHandler.handle_message TelegramHandler.handle_message_try
    show (match ConversationManager.get_or_create w 42 none with
          | (w1, Except.error e) => (w1, Except.error e)
          | (w1, Except.ok conversation) =>
              TelegramHandler.persistAndReply w1 conversation
                (MsgFields.mk 1 42 none "/start" 9)).fst = _
    rw [hgoc]
  have h2 : (TelegramHandler.persistAndReply
        (W.mk (DB.mk (w.db.conversations
            ++ [Conversation.mk w.db.nextId 42 none ConversationStatus.active])
            w.db.messages (w.db.nextId + 1)) w.trace w.net)
        (Conversation.mk w.db.nextId 42 none ConversationStatus.active)
        (MsgFields.mk 1 42 none "/start" 9)).fst
      = W.mk (DB.mk (w.db.conversations
            ++ [Conversation.mk w.db.nextId 42 none ConversationStatus.active])
            (w.db.messages
              ++ [Message.mk (w.db.nextId + 1) w.db.nextId SenderType.user "/start" (some 9)
                    false none none none none (w.db.nextId + 1)])
            (w.db.nextId + 2))
          (w.trace ++ [ApiCall.sendMessage 1 welcome_message none (some start_keyboard)])
          w.net.tail := by
    unfold TelegramHandler.persistAndReply
    show (match ConversationManager.add_message
          (W.mk (DB.mk (w.db.conversations
              ++ [Conversation.mk w.db.nextId 42 none ConversationStatus.active])
              w.db.messages (w.db.nextId + 1)) w.trace w.net)
          w.db.nextId "user" "/start" (some 9) none with
        | (w2, Except.error e) => (w2, Except.error e)
        | (w2, Except.ok _) => TelegramHandler.replyStep w2 1 "/start").fst = _
    rw [hadd]
    show (TelegramClient.send_message
        (W.mk (DB.mk (w.db.conversations
            ++ [Conversation.mk w.db.nextId 42 none ConversationStatus.active])
            (w.db.messages
              ++ [Message.mk (w.db.nextId + 1) w.db.nextId SenderType.user "/start" (some 9)
                    false none none none none (w.db.nextId + 1)])
            (w.db.nextId + 2)) w.trace w.net)
        1 welcome_message none (some start_keyboard)).fst = _
    rw [send_message_fst]
  have hrun : TelegramHandler.process_update w startUpdate
      = (TelegramHandler.handle_message w startMsgJson, Except.ok ()) := rfl
  rw [hrun]
  rw [show (TelegramHandler.handle_message w startMsgJson, (Except.ok () : Except Err Unit)).fst
      = TelegramHandler.handle_message w startMsgJson from rfl]
  rw [h1, h2]
  refine ⟨rfl, rfl, rfl, ?_, rfl⟩
  rw [rowsFor_append, hrows, rowsFor_singleton_self 42 _ rfl]
  rfl

/-- C5 witness: the scenario run from the empty store. -/
theorem start_scenario_witness :
    ((TelegramHandler.process_update emptyW startUpdate).fst.db.conversations
        = [Conversation.mk 0 42 none ConversationStatus.active])
    ∧ ((TelegramHandler.process_update emptyW startUpdate).fst.db.messages
        = [Message.mk 1 0 SenderType.user "/start" (some 9) false none none none none 1])
    ∧ ((TelegramHandler.process_update emptyW startUpdate).fst.trace
        = [ApiCall.sendMessage 1 welcome_message none (some start_keyboard)]) := by
  have h := start_scenario emptyW rfl (by decide)
  exact ⟨h.1.trans rfl, h.2.1.trans rfl, h.2.2.1.trans rfl⟩
